import Mathlib

/-
Verification of the LAN Messaging Notifier service.

The embedding models the FastAPI application in src/src/app.py (the /notify
and /test handlers, startup initialization) together with the configuration
logic in src/src/config.py and the WhatsApp adapter configuration logic in
src/src/notifiers/whatsapp.py.

Adapter behaviour (what send_message / test_connection / the constructors do
at runtime) is an external environment; it is modelled as a function from
platform identifier to an outcome, where an outcome is either a returned
boolean or a raised exception carrying its message.
-/

namespace LanNotifier

/-- Python truthiness of a string: `bool(s)` is true iff `s` is non-empty. -/
def pyTruthy (s : String) : Bool := !(s == "")

/-- Python truthiness of an optional string: `bool(None)` is false,
`bool(s)` is true iff `s` is non-empty. -/
def pyTruthyOpt : Option String → Bool
  | none => false
  | some s => pyTruthy s

/-- Mirrors the Pydantic model `PlatformResult` of src/src/app.py:
a per-platform outcome with a success flag and an optional error message. -/
structure PlatformResult where
  success : Bool
  error : Option String
deriving DecidableEq, Repr

/-- Outcome of calling one adapter method (`send_message` or
`test_connection`): the method either returns a boolean or raises an
exception whose string form is `msg`. -/
inductive CallOutcome where
  | ok (b : Bool)
  | exn (msg : String)
deriving DecidableEq, Repr

/-- How both handler loops of src/src/app.py turn one adapter call into a
recorded `PlatformResult`: a returned boolean is recorded with `error=None`;
a raised exception is recorded as `success=False` with `error=str(e)`. -/
def toResult : CallOutcome → PlatformResult
  | .ok b => ⟨b, none⟩
  | .exn m => ⟨false, some m⟩

/-- Contribution of one adapter call to the `success_count` counter of the
/notify loop: 1 exactly when the call returned `True`. -/
def succOf : CallOutcome → Nat
  | .ok true => 1
  | _ => 0

/-- Python `dict` insertion `d[k] = v` on an association list: an existing
key is overwritten in place, a new key is appended at the end. -/
def dictInsert (k : String) (v : PlatformResult)
    (d : List (String × PlatformResult)) : List (String × PlatformResult) :=
  if d.any (fun kv => kv.1 == k) then
    d.map (fun kv => if kv.1 == k then (k, v) else kv)
  else
    d ++ [(k, v)]

/-- Python `dict` lookup `d[k]` (as an option): value at the first matching
key. -/
def dictGet (k : String) (d : List (String × PlatformResult)) :
    Option PlatformResult :=
  (d.find? (fun kv => kv.1 == k)).map (fun kv => kv.2)

/-- The fan-out loop of the /notify handler (src/src/app.py lines 195-210):
iterate over the requested platforms; on each, call `send_message`; a
returned boolean is recorded with a null error and increments the counter
when true; a raised exception is caught, recorded with the exception
message, and the loop continues with the remaining platforms. -/
def dispatchFrom (send : String → CallOutcome)
    (acc : List (String × PlatformResult)) (cnt : Nat) :
    List String → List (String × PlatformResult) × Nat
  | [] => (acc, cnt)
  | p :: rest =>
      dispatchFrom send (dictInsert p (toResult (send p)) acc)
        (cnt + succOf (send p)) rest

/-- The /notify fan-out started from the empty results dict and a zero
counter. -/
def dispatch (send : String → CallOutcome) (ps : List String) :
    List (String × PlatformResult) × Nat :=
  dispatchFrom send [] 0 ps

/-- The value reached by the `success_count` counter after the /notify loop
has processed a platform list: the sum of the per-element contributions. -/
def countSucc (send : String → CallOutcome) : List String → Nat
  | [] => 0
  | p :: rest => succOf (send p) + countSucc send rest

/-- Body shape shared by the 200 response (`NotifyResponse`) and the 500
`detail` body of the /notify handler. -/
structure NotifyBody where
  message : String
  total_platforms : Nat
  successful : Nat
  results : List (String × PlatformResult)
deriving DecidableEq, Repr

/-- The possible HTTP replies of POST /notify:
Pydantic validation failure on the message field (422), the
invalid-platform rejection (400, carrying the offending identifiers and
the available platforms), the total-failure HTTPException (500), and the
ordinary success response (200). -/
inductive Reply where
  | unprocessable
  | invalidPlatforms (invalid : List String) (available : List String)
  | totalFailure (body : NotifyBody)
  | success (body : NotifyBody)
deriving DecidableEq, Repr

/-- HTTP status code of each reply kind. -/
def Reply.status : Reply → Nat
  | .unprocessable => 422
  | .invalidPlatforms _ _ => 400
  | .totalFailure _ => 500
  | .success _ => 200

/-- The body carried by a reply, when it has one (the 200 response body or
the 500 detail body). -/
def Reply.bodyOf : Reply → Option NotifyBody
  | .totalFailure b => some b
  | .success b => some b
  | _ => none

/-- One handled /notify request: the reply together with the list of
platforms on which `send_message` was invoked, in invocation order. -/
structure Exchange where
  reply : Reply
  sent : List String
deriving DecidableEq, Repr

/-- Line 178 of src/src/app.py:
`platforms = request.platforms if request.platforms else list(notifiers.keys())`.
Both a missing field and an (falsy) empty list fall back to the registry
key set. -/
def resolveTargets (registry : List String) :
    Option (List String) → List String
  | none => registry
  | some ps => if ps.isEmpty then registry else ps

/-- The /notify endpoint (src/src/app.py lines 166-229) including the
Pydantic validation of the request model: a missing or empty `message`
is rejected by the framework with 422 before the handler runs; then the
target list is resolved, platforms absent from the registry cause a 400
rejection before any send; otherwise the fan-out runs and a zero success
count yields the 500 total-failure reply, a positive one the 200 reply. -/
def notify (registry : List String) (send : String → CallOutcome)
    (message : Option String) (platformsField : Option (List String)) :
    Exchange :=
  match message with
  | none => ⟨.unprocessable, []⟩
  | some m =>
    if !pyTruthy m then ⟨.unprocessable, []⟩
    else
      let platforms := resolveTargets registry platformsField
      let invalid := platforms.filter (fun p => !(registry.contains p))
      if !invalid.isEmpty then ⟨.invalidPlatforms invalid registry, []⟩
      else
        let r := dispatch send platforms
        if r.2 == 0 then
          ⟨.totalFailure ⟨"Failed to send to any platform",
              platforms.length, 0, r.1⟩, platforms⟩
        else
          ⟨.success ⟨"Notifications sent",
              platforms.length, r.2, r.1⟩, platforms⟩

/-- The loop of the /test handler (src/src/app.py lines 141-163): for every
registered platform call `test_connection`; a returned boolean is recorded
with `error=None`, a raised exception as `success=False` with the message. -/
def testFrom (tc : String → CallOutcome)
    (acc : List (String × PlatformResult)) :
    List String → List (String × PlatformResult)
  | [] => acc
  | p :: rest => testFrom tc (dictInsert p (toResult (tc p)) acc) rest

/-- The /test endpoint: the results dict built over the registry keys. -/
def test_connections (registry : List String) (tc : String → CallOutcome) :
    List (String × PlatformResult) :=
  testFrom tc [] registry

/-! ### Configuration and startup (src/src/config.py, src/src/app.py) -/

/-- Structure `SlackConfig` of src/src/config.py: optional token, channel with a
default. -/
structure SlackConfig where
  token : Option String
  channel : String
deriving DecidableEq, Repr

/-- Method `SlackConfig.is_enabled`: `bool(self.token)`. -/
def SlackConfig.is_enabled (c : SlackConfig) : Bool := pyTruthyOpt c.token

/-- Structure `TelegramConfig` of src/src/config.py. -/
structure TelegramConfig where
  token : Option String
  chat_id : Option String
deriving DecidableEq, Repr

/-- Method `TelegramConfig.is_enabled`: `bool(self.token and self.chat_id)`. -/
def TelegramConfig.is_enabled (c : TelegramConfig) : Bool :=
  pyTruthyOpt c.token && pyTruthyOpt c.chat_id

/-- Structure `WhatsAppConfig` of src/src/config.py (Twilio credentials and the two
addresses). -/
structure WhatsAppConfig where
  account_sid : Option String
  auth_token : Option String
  from_number : Option String
  to_number : Option String
deriving DecidableEq, Repr

/-- Method `WhatsAppConfig.is_enabled`: all four fields truthy. -/
def WhatsAppConfig.is_enabled (c : WhatsAppConfig) : Bool :=
  pyTruthyOpt c.account_sid && pyTruthyOpt c.auth_token &&
    pyTruthyOpt c.from_number && pyTruthyOpt c.to_number

/-- The `Config` object of src/src/config.py (the debug/host/port knobs do
not influence any verified behaviour and are omitted). -/
structure Config where
  slack : SlackConfig
  telegram : TelegramConfig
  whatsapp : WhatsAppConfig
deriving DecidableEq, Repr

/-- Method `Config.get_enabled_platforms`: the enabled platform names in the fixed
slack, telegram, whatsapp order. -/
def Config.get_enabled_platforms (c : Config) : List String :=
  (if c.slack.is_enabled then ["slack"] else []) ++
    (if c.telegram.is_enabled then ["telegram"] else []) ++
      (if c.whatsapp.is_enabled then ["whatsapp"] else [])

/-- Method `Config.validate`: raises a RuntimeError when no platform is enabled. -/
def Config.validate (c : Config) : Except String Unit :=
  if c.get_enabled_platforms.isEmpty then
    .error "No notification platforms configured"
  else
    .ok ()

/-- One attempted adapter construction in `initialize_notifiers`
(src/src/app.py lines 75-112): the constructor either succeeds or raises;
a raised exception is caught, logged and the platform skipped. The
environment `ctor` gives each platform its construction outcome. -/
def initAttempt (ctor : String → Except String Unit) (enabled : Bool)
    (p : String) : List String :=
  if enabled then
    match ctor p with
    | .ok _ => [p]
    | .error _ => []
  else []

/-- Whether the constructor environment reports a successful adapter
construction for a platform. -/
def ctorOk (ctor : String → Except String Unit) (p : String) : Bool :=
  match ctor p with
  | .ok _ => true
  | .error _ => false

/-- Function `initialize_notifiers` of src/src/app.py: try slack, telegram, whatsapp
in order; enabled platforms whose constructor succeeds are registered;
constructor failures are only logged and skipped; an empty outcome only
produces a warning. Returns the registry key list. -/
def initialize_notifiers (c : Config) (ctor : String → Except String Unit) :
    List String :=
  initAttempt ctor c.slack.is_enabled "slack" ++
    initAttempt ctor c.telegram.is_enabled "telegram" ++
      initAttempt ctor c.whatsapp.is_enabled "whatsapp"

/-- Result of the startup event: the application either aborts with the
exception message or starts with a registry. -/
inductive StartupOutcome where
  | aborted (msg : String)
  | started (registry : List String)
deriving DecidableEq, Repr

/-- Function `startup_event` of src/src/app.py (lines 115-124): run
`config.validate()` (re-raising aborts startup), then
`initialize_notifiers()`; any exception propagates, everything else
(including an empty registry) lets startup proceed. -/
def startup_event (c : Config) (ctor : String → Except String Unit) :
    StartupOutcome :=
  match c.validate with
  | .error m => .aborted m
  | .ok _ => .started (initialize_notifiers c ctor)

/-! ### WhatsApp adapter configuration (src/src/notifiers/whatsapp.py) -/

/-- Python `s.startswith(t)` modelled on the character sequences. -/
def pyStartswith (s t : String) : Bool := t.data.isPrefixOf s.data

/-- The normalization applied to both numbers by
`WhatsAppNotifier.validate_config`: add the `whatsapp:` scheme when it is
absent. -/
def withScheme (s : String) : String :=
  if pyStartswith s "whatsapp:" then s else "whatsapp:" ++ s

/-- Method `WhatsAppNotifier.validate_config` (src/src/notifiers/whatsapp.py lines
24-43): check the four required fields in order, raising a ValueError
naming the first missing one; then ensure both numbers carry the
`whatsapp:` scheme. Returns the mutated configuration (the Twilio client
construction carries no further configuration change). -/
def WhatsAppNotifier.validate_config (cfg : WhatsAppConfig) :
    Except String WhatsAppConfig :=
  if !pyTruthyOpt cfg.account_sid then
    .error "WhatsApp account_sid is required"
  else if !pyTruthyOpt cfg.auth_token then
    .error "WhatsApp auth_token is required"
  else if !pyTruthyOpt cfg.from_number then
    .error "WhatsApp from_number is required"
  else if !pyTruthyOpt cfg.to_number then
    .error "WhatsApp to_number is required"
  else
    .ok { cfg with
      from_number := some (withScheme (cfg.from_number.getD ""))
      to_number := some (withScheme (cfg.to_number.getD "")) }

/-! ### Basic lemmas about the embedded operations -/

theorem succOf_le_one (o : CallOutcome) : succOf o ≤ 1 := by
  cases o with
  | ok b => cases b <;> simp [succOf]
  | exn m => simp [succOf]

theorem toResult_success_iff (o : CallOutcome) :
    (toResult o).success = true ↔ o = .ok true := by
  cases o with
  | ok b => cases b <;> simp [toResult]
  | exn m => simp [toResult]

theorem dictInsert_fresh (k : String) (v : PlatformResult)
    (d : List (String × PlatformResult))
    (h : d.any (fun kv => kv.1 == k) = false) :
    dictInsert k v d = d ++ [(k, v)] := by
  simp [dictInsert, h]

theorem dispatchFrom_spec (send : String → CallOutcome) :
    ∀ (ps : List String) (acc : List (String × PlatformResult)) (cnt : Nat),
      ps.Nodup → (∀ p ∈ ps, acc.any (fun kv => kv.1 == p) = false) →
      dispatchFrom send acc cnt ps =
        (acc ++ ps.map (fun p => (p, toResult (send p))),
          cnt + countSucc send ps) := by
  intro ps
  induction ps with
  | nil =>
      intro acc cnt _ _
      simp [dispatchFrom, countSucc]
  | cons p rest ih =>
      intro acc cnt hnd hfresh
      rw [dispatchFrom, dictInsert_fresh p _ acc (hfresh p (by simp))]
      rw [ih (acc ++ [(p, toResult (send p))]) (cnt + succOf (send p))
        (List.Nodup.of_cons hnd) ?fresh]
      · simp [countSucc]
        omega
      case fresh =>
        intro q hq
        have hq1 := hfresh q (List.mem_cons_of_mem _ hq)
        have hne : p ≠ q := by
          intro h
          exact (List.nodup_cons.mp hnd).1 (h ▸ hq)
        simp [List.any_append, hq1, hne]

theorem dispatch_spec (send : String → CallOutcome) (ps : List String)
    (hnd : ps.Nodup) :
    dispatch send ps =
      (ps.map (fun p => (p, toResult (send p))), countSucc send ps) := by
  have h := dispatchFrom_spec send ps [] 0 hnd (fun p _ => rfl)
  simpa [dispatch] using h

theorem testFrom_spec (tc : String → CallOutcome) :
    ∀ (ps : List String) (acc : List (String × PlatformResult)),
      ps.Nodup → (∀ p ∈ ps, acc.any (fun kv => kv.1 == p) = false) →
      testFrom tc acc ps = acc ++ ps.map (fun p => (p, toResult (tc p))) := by
  intro ps
  induction ps with
  | nil =>
      intro acc _ _
      simp [testFrom]
  | cons p rest ih =>
      intro acc hnd hfresh
      rw [testFrom, dictInsert_fresh p _ acc (hfresh p (by simp))]
      rw [ih (acc ++ [(p, toResult (tc p))]) (List.Nodup.of_cons hnd) ?fresh]
      · simp
      case fresh =>
        intro q hq
        have hq1 := hfresh q (List.mem_cons_of_mem _ hq)
        have hne : p ≠ q := by
          intro h
          exact (List.nodup_cons.mp hnd).1 (h ▸ hq)
        simp [List.any_append, hq1, hne]

theorem map_fst_pairing (f : String → PlatformResult) (l : List String) :
    (l.map (fun p => (p, f p))).map Prod.fst = l := by
  induction l with
  | nil => rfl
  | cons a as ih => simp [ih]

theorem dictGet_map (f : String → PlatformResult) :
    ∀ (ps : List String) (p : String), p ∈ ps →
      dictGet p (ps.map (fun q => (q, f q))) = some (f p) := by
  intro ps
  induction ps with
  | nil =>
      intro p hp
      cases hp
  | cons q rest ih =>
      intro p hp
      by_cases h : q = p
      · subst h
        simp [dictGet, List.find?]
      · have hmem : p ∈ rest := by
          rcases List.mem_cons.mp hp with h1 | h1
          · exact absurd h1.symm h
          · exact h1
        have hq : (q == p) = false := by simp [h]
        simpa [dictGet, List.find?, hq] using ih p hmem

theorem countSucc_le_length (send : String → CallOutcome) :
    ∀ ps : List String, countSucc send ps ≤ ps.length := by
  intro ps
  induction ps with
  | nil => exact Nat.le_refl 0
  | cons p rest ih =>
      have h := succOf_le_one (send p)
      simp only [countSucc, List.length_cons]
      omega

theorem dispatchFrom_count_le (send : String → CallOutcome) :
    ∀ (ps : List String) (acc : List (String × PlatformResult)) (cnt : Nat),
      (dispatchFrom send acc cnt ps).2 ≤ cnt + ps.length := by
  intro ps
  induction ps with
  | nil =>
      intro acc cnt
      simp [dispatchFrom]
  | cons p rest ih =>
      intro acc cnt
      rw [dispatchFrom]
      have h := ih (dictInsert p (toResult (send p)) acc)
        (cnt + succOf (send p))
      have h2 := succOf_le_one (send p)
      simp only [List.length_cons]
      omega

theorem filterSuccess_eq_countSucc (send : String → CallOutcome) :
    ∀ ps : List String,
      ((ps.map (fun p => (p, toResult (send p)))).filter
          (fun kv => kv.2.success)).length = countSucc send ps := by
  intro ps
  induction ps with
  | nil => rfl
  | cons p rest ih =>
      simp only [List.map_cons, List.filter_cons]
      cases ho : send p with
      | ok b =>
          cases b
          · simpa [toResult, countSucc, succOf, ho] using ih
          · have ih2 := ih
            simp only [toResult] at ih2
            simp [toResult, countSucc, succOf, ho]
            omega
      | exn m => simpa [toResult, countSucc, succOf, ho] using ih

theorem notify_valid_eq (registry : List String)
    (send : String → CallOutcome) (m : String) (ps : List String)
    (hm : pyTruthy m = true) (hne : ps ≠ [])
    (hsub : ∀ p ∈ ps, registry.contains p = true) :
    notify registry send (some m) (some ps) =
      if (dispatch send ps).2 = 0 then
        ⟨.totalFailure ⟨"Failed to send to any platform",
            ps.length, 0, (dispatch send ps).1⟩, ps⟩
      else
        ⟨.success ⟨"Notifications sent",
            ps.length, (dispatch send ps).2, (dispatch send ps).1⟩, ps⟩ := by
  obtain ⟨a, as, rfl⟩ := List.exists_cons_of_ne_nil hne
  have hinv : (a :: as).filter (fun p => !(registry.contains p)) = [] := by
    rw [List.filter_eq_nil_iff]
    intro p hp
    rw [hsub p hp]
    simp
  simp only [notify, resolveTargets, List.isEmpty_cons, Bool.false_eq_true,
    if_false, hm, Bool.not_true, hinv, List.isEmpty_nil, Bool.not_false,
    Bool.true_eq_false, beq_iff_eq]

theorem isPrefixOf_append_self (l t : List Char) :
    l.isPrefixOf (l ++ t) = true := by
  induction l with
  | nil => simp [List.isPrefixOf]
  | cons a as ih => simp [List.isPrefixOf, ih]

theorem pyStartswith_scheme_append (s : String) :
    pyStartswith ("whatsapp:" ++ s) "whatsapp:" = true := by
  simp [pyStartswith, String.data_append, isPrefixOf_append_self]

theorem withScheme_of_has (s : String)
    (h : pyStartswith s "whatsapp:" = true) : withScheme s = s := by
  simp [withScheme, h]

theorem withScheme_of_absent (s : String)
    (h : pyStartswith s "whatsapp:" = false) :
    withScheme s = "whatsapp:" ++ s := by
  simp [withScheme, h]

theorem withScheme_has (s : String) :
    pyStartswith (withScheme s) "whatsapp:" = true := by
  cases h : pyStartswith s "whatsapp:" with
  | false => rw [withScheme_of_absent s h]; exact pyStartswith_scheme_append s
  | true => rw [withScheme_of_has s h]; exact h

theorem withScheme_idem (s : String) :
    withScheme (withScheme s) = withScheme s :=
  withScheme_of_has _ (withScheme_has s)

theorem pyTruthy_of_scheme (s : String)
    (h : pyStartswith s "whatsapp:" = true) : pyTruthy s = true := by
  by_contra hc
  have hs : s = "" := by
    unfold pyTruthy at hc
    simpa using hc
  subst hs
  exact absurd h (by decide)

theorem withScheme_truthy (s : String) : pyTruthy (withScheme s) = true :=
  pyTruthy_of_scheme _ (withScheme_has s)

theorem countSucc_eq_filter (send : String → CallOutcome) :
    ∀ ps : List String,
      countSucc send ps =
        (ps.filter (fun p => send p == CallOutcome.ok true)).length := by
  intro ps
  induction ps with
  | nil => rfl
  | cons p rest ih =>
      rw [List.filter_cons]
      cases ho : send p with
      | ok b =>
          cases b
          · simp [countSucc, succOf, ho, ih]
          · simp [countSucc, succOf, ho, ih]
            omega
      | exn msg => simp [countSucc, succOf, ho, ih]

theorem countSucc_zero_of_false (send : String → CallOutcome) :
    ∀ ps : List String, (∀ p ∈ ps, send p = .ok false) →
      countSucc send ps = 0 := by
  intro ps
  induction ps with
  | nil => intro _; rfl
  | cons p rest ih =>
      intro h
      rw [countSucc, h p (by simp), ih (fun q hq => h q (by simp [hq]))]
      rfl

theorem notify_invalid_eq (registry : List String)
    (send : String → CallOutcome) (m : String) (pf : Option (List String))
    (hm : pyTruthy m = true)
    (hfil : ((resolveTargets registry pf).filter
      (fun p => !(registry.contains p))).isEmpty = false) :
    notify registry send (some m) pf =
      ⟨.invalidPlatforms
        ((resolveTargets registry pf).filter
          (fun p => !(registry.contains p))) registry, []⟩ := by
  simp only [notify, hm, Bool.not_true, Bool.false_eq_true, if_false, hfil,
    Bool.not_false, if_true]

/-! ### Claim C1 -/

/-- C1: for every non-empty message and every duplicate-free non-empty
platform list whose entries are all registered, /notify attempts
`send_message` on every requested platform (in order), and the body it
produces (the 200 response or the 500 detail) holds exactly one result
entry per requested platform with `total_platforms` equal to the length of
the requested list; an adapter that raises an exception is recorded as
`success=false` carrying the exception message, and the remaining adapters
are still attempted. -/
theorem C1_notify_fanout (registry : List String)
    (send : String → CallOutcome) (m : String) (ps : List String)
    (hm : pyTruthy m = true) (hne : ps ≠ []) (hnd : ps.Nodup)
    (hsub : ∀ p ∈ ps, registry.contains p = true) :
    (notify registry send (some m) (some ps)).sent = ps ∧
    ∃ body : NotifyBody,
      ((notify registry send (some m) (some ps)).reply = .success body ∨
        (notify registry send (some m) (some ps)).reply =
          .totalFailure body) ∧
      body.total_platforms = ps.length ∧
      body.results = ps.map (fun p => (p, toResult (send p))) ∧
      ∀ p ∈ ps, ∀ e, send p = .exn e →
        dictGet p body.results = some ⟨false, some e⟩ := by
  rw [notify_valid_eq registry send m ps hm hne hsub,
    dispatch_spec send ps hnd]
  dsimp only
  by_cases h0 : countSucc send ps = 0
  · rw [if_pos h0]
    refine ⟨rfl, _, Or.inr rfl, rfl, rfl, ?_⟩
    intro p hp e he
    rw [dictGet_map (fun q => toResult (send q)) ps p hp, he]
    rfl
  · rw [if_neg h0]
    refine ⟨rfl, _, Or.inl rfl, rfl, rfl, ?_⟩
    intro p hp e he
    rw [dictGet_map (fun q => toResult (send q)) ps p hp, he]
    rfl

theorem C1_witness :
    pyTruthy "hello" = true ∧
    (["slack", "telegram"] : List String) ≠ [] ∧
    (notify ["slack", "telegram"]
        (fun p => if p == "slack" then .exn "boom" else .ok true)
        (some "hello") (some ["slack", "telegram"])).sent =
      ["slack", "telegram"] ∧
    ∃ body : NotifyBody,
      ((notify ["slack", "telegram"]
          (fun p => if p == "slack" then .exn "boom" else .ok true)
          (some "hello") (some ["slack", "telegram"])).reply =
            .success body ∨
        (notify ["slack", "telegram"]
          (fun p => if p == "slack" then .exn "boom" else .ok true)
          (some "hello") (some ["slack", "telegram"])).reply =
            .totalFailure body) ∧
      body.total_platforms = (["slack", "telegram"] : List String).length ∧
      body.results = (["slack", "telegram"] : List String).map
        (fun p => (p, toResult
          (if p == "slack" then .exn "boom" else .ok true))) ∧
      ∀ p ∈ (["slack", "telegram"] : List String), ∀ e,
        (if p == "slack" then CallOutcome.exn "boom"
          else CallOutcome.ok true) = .exn e →
        dictGet p body.results = some ⟨false, some e⟩ := by
  refine ⟨by decide, by decide, ?_⟩
  exact C1_notify_fanout ["slack", "telegram"]
    (fun p => if p == "slack" then .exn "boom" else .ok true)
    "hello" ["slack", "telegram"] (by decide) (by decide) (by decide)
    (by decide)

/-! ### Claim C2 -/

/-- C2: whenever at least one resolved platform identifier is not a
registry key, /notify replies 400 with the offending identifiers (the
filter of the resolved list) and the available platforms, and no
`send_message` is invoked. -/
theorem C2_invalid_platform_rejection (registry : List String)
    (send : String → CallOutcome) (m : String) (pf : Option (List String))
    (hm : pyTruthy m = true)
    (hbad : ∃ p ∈ resolveTargets registry pf,
      registry.contains p = false) :
    (notify registry send (some m) pf).reply =
      .invalidPlatforms
        ((resolveTargets registry pf).filter
          (fun p => !(registry.contains p))) registry ∧
    ((notify registry send (some m) pf).reply).status = 400 ∧
    (notify registry send (some m) pf).sent = [] := by
  obtain ⟨q, hq, hqc⟩ := hbad
  have hmemf : q ∈ (resolveTargets registry pf).filter
      (fun p => !(registry.contains p)) :=
    List.mem_filter.mpr ⟨hq, by rw [hqc]; rfl⟩
  have hfil : ((resolveTargets registry pf).filter
      (fun p => !(registry.contains p))).isEmpty = false := by
    cases hcase : (resolveTargets registry pf).filter
        (fun p => !(registry.contains p)) with
    | nil => rw [hcase] at hmemf; cases hmemf
    | cons a as => rfl
  rw [notify_invalid_eq registry send m pf hm hfil]
  exact ⟨rfl, rfl, rfl⟩

theorem C2_witness :
    pyTruthy "hello" = true ∧
    (∃ p ∈ resolveTargets ["slack"] (some ["slack", "discord"]),
      (["slack"] : List String).contains p = false) ∧
    (notify ["slack"] (fun _ => .ok true) (some "hello")
        (some ["slack", "discord"])).reply =
      .invalidPlatforms
        ((resolveTargets ["slack"] (some ["slack", "discord"])).filter
          (fun p => !((["slack"] : List String).contains p))) ["slack"] ∧
    ((notify ["slack"] (fun _ => .ok true) (some "hello")
        (some ["slack", "discord"])).reply).status = 400 ∧
    (notify ["slack"] (fun _ => .ok true) (some "hello")
        (some ["slack", "discord"])).sent = [] := by
  refine ⟨by decide, by decide, ?_⟩
  exact C2_invalid_platform_rejection ["slack"] (fun _ => .ok true)
    "hello" (some ["slack", "discord"]) (by decide) (by decide)

/-! ### Claim C3 -/

/-- C3 counterexample: with the duplicated request list
`["slack", "slack"]` and an adapter that returns true, the response is 200
with `successful = 2`, while the results mapping holds a single entry whose
success flag is true, so the claimed equality fails on lists with repeated
platform identifiers. -/
theorem C3_counterexample :
    (notify ["slack"] (fun _ => .ok true) (some "hi")
        (some ["slack", "slack"])).reply =
      .success ⟨"Notifications sent", 2, 2, [("slack", ⟨true, none⟩)]⟩ ∧
    ((notify ["slack"] (fun _ => .ok true) (some "hi")
        (some ["slack", "slack"])).reply).bodyOf.map
      (fun b => (b.successful,
        (b.results.filter (fun kv => kv.2.success)).length)) =
      some (2, 1) ∧
    (2 : Nat) ≠ 1 := by
  exact ⟨by decide, by decide, by decide⟩

/-- C3 (amended): for every validated request whose platform list is
duplicate-free, the `successful` field of the body (200 response or 500
detail) equals the number of entries of the results mapping whose success
flag is true. (On lists with repeated identifiers the counter counts list
positions while the mapping holds one entry per distinct platform, so the
equality can fail.) -/
theorem C3_successful_counts_results (registry : List String)
    (send : String → CallOutcome) (m : String) (ps : List String)
    (hm : pyTruthy m = true) (hne : ps ≠ []) (hnd : ps.Nodup)
    (hsub : ∀ p ∈ ps, registry.contains p = true) :
    ∃ body : NotifyBody,
      ((notify registry send (some m) (some ps)).reply = .success body ∨
        (notify registry send (some m) (some ps)).reply =
          .totalFailure body) ∧
      body.successful =
        (body.results.filter (fun kv => kv.2.success)).length := by
  rw [notify_valid_eq registry send m ps hm hne hsub,
    dispatch_spec send ps hnd]
  dsimp only
  by_cases h0 : countSucc send ps = 0
  · rw [if_pos h0]
    refine ⟨_, Or.inr rfl, ?_⟩
    dsimp only
    rw [filterSuccess_eq_countSucc, h0]
  · rw [if_neg h0]
    refine ⟨_, Or.inl rfl, ?_⟩
    dsimp only
    rw [filterSuccess_eq_countSucc]

theorem C3_witness :
    pyTruthy "hi" = true ∧
    (["slack", "telegram"] : List String).Nodup ∧
    ∃ body : NotifyBody,
      ((notify ["slack", "telegram"]
          (fun p => if p == "slack" then .ok true else .ok false)
          (some "hi") (some ["slack", "telegram"])).reply =
            .success body ∨
        (notify ["slack", "telegram"]
          (fun p => if p == "slack" then .ok true else .ok false)
          (some "hi") (some ["slack", "telegram"])).reply =
            .totalFailure body) ∧
      body.successful =
        (body.results.filter (fun kv => kv.2.success)).length := by
  refine ⟨by decide, by decide, ?_⟩
  exact C3_successful_counts_results ["slack", "telegram"]
    (fun p => if p == "slack" then .ok true else .ok false)
    "hi" ["slack", "telegram"] (by decide) (by decide) (by decide)
    (by decide)

/-! ### Claim C4 -/

/-- C4: for every validated request, a zero success count yields the 500
total-failure reply carrying `successful = 0` and the full per-platform
results, while a success count of at least one yields the 200 success
reply even when some platforms failed. -/
theorem C4_outcome_classification (registry : List String)
    (send : String → CallOutcome) (m : String) (ps : List String)
    (hm : pyTruthy m = true) (hne : ps ≠ [])
    (hsub : ∀ p ∈ ps, registry.contains p = true) :
    (dispatch send ps).2 ≤ ps.length ∧
    ((dispatch send ps).2 = 0 →
      (notify registry send (some m) (some ps)).reply =
        .totalFailure ⟨"Failed to send to any platform", ps.length, 0,
          (dispatch send ps).1⟩ ∧
      ((notify registry send (some m) (some ps)).reply).status = 500) ∧
    (1 ≤ (dispatch send ps).2 →
      (notify registry send (some m) (some ps)).reply =
        .success ⟨"Notifications sent", ps.length, (dispatch send ps).2,
          (dispatch send ps).1⟩ ∧
      ((notify registry send (some m) (some ps)).reply).status = 200) := by
  refine ⟨?_, ?_, ?_⟩
  · have h := dispatchFrom_count_le send ps [] 0
    simpa [dispatch] using h
  · intro h0
    rw [notify_valid_eq registry send m ps hm hne hsub, if_pos h0]
    exact ⟨rfl, rfl⟩
  · intro h1
    have h0 : ¬(dispatch send ps).2 = 0 := by omega
    rw [notify_valid_eq registry send m ps hm hne hsub, if_neg h0]
    exact ⟨rfl, rfl⟩

theorem C4_witness :
    pyTruthy "hi" = true ∧
    (["slack", "telegram"] : List String) ≠ [] ∧
    ((dispatch (fun p => if p == "slack" then .ok true else .exn "down")
        ["slack", "telegram"]).2 ≤
      (["slack", "telegram"] : List String).length ∧
    ((dispatch (fun p => if p == "slack" then .ok true else .exn "down")
        ["slack", "telegram"]).2 = 0 →
      (notify ["slack", "telegram"]
          (fun p => if p == "slack" then .ok true else .exn "down")
          (some "hi") (some ["slack", "telegram"])).reply =
        .totalFailure ⟨"Failed to send to any platform",
          (["slack", "telegram"] : List String).length, 0,
          (dispatch (fun p => if p == "slack" then .ok true
            else .exn "down") ["slack", "telegram"]).1⟩ ∧
      ((notify ["slack", "telegram"]
          (fun p => if p == "slack" then .ok true else .exn "down")
          (some "hi") (some ["slack", "telegram"])).reply).status = 500) ∧
    (1 ≤ (dispatch (fun p => if p == "slack" then .ok true
        else .exn "down") ["slack", "telegram"]).2 →
      (notify ["slack", "telegram"]
          (fun p => if p == "slack" then .ok true else .exn "down")
          (some "hi") (some ["slack", "telegram"])).reply =
        .success ⟨"Notifications sent",
          (["slack", "telegram"] : List String).length,
          (dispatch (fun p => if p == "slack" then .ok true
            else .exn "down") ["slack", "telegram"]).2,
          (dispatch (fun p => if p == "slack" then .ok true
            else .exn "down") ["slack", "telegram"]).1⟩ ∧
      ((notify ["slack", "telegram"]
          (fun p => if p == "slack" then .ok true else .exn "down")
          (some "hi") (some ["slack", "telegram"])).reply).status =
        200)) := by
  refine ⟨by decide, by decide, ?_⟩
  exact C4_outcome_classification ["slack", "telegram"]
    (fun p => if p == "slack" then .ok true else .exn "down")
    "hi" ["slack", "telegram"] (by decide) (by decide) (by decide)

/-! ### Claim C5 -/

/-- C5 counterexample: with one registered, succeeding platform, a request
whose `platforms` field is the explicit empty list is answered 200 (not a
validation failure) and `send_message` is invoked on the registered
platform, because line 178 of src/src/app.py treats the falsy empty list
like an omitted field. -/
theorem C5_counterexample :
    ((notify ["slack"] (fun _ => .ok true) (some "hi")
        (some [])).reply).status = 200 ∧
    (notify ["slack"] (fun _ => .ok true) (some "hi")
        (some [])).sent = ["slack"] := by
  exact ⟨by decide, by decide⟩

/-- C5 (amended): a request whose `platforms` field is the explicit empty
list is treated exactly like a request with the field omitted: the target
list falls back to the full registry key set, and the whole /notify
behaviour coincides with the omitted-field behaviour; no validation
failure is produced. -/
theorem C5_empty_list_defaults (registry : List String)
    (send : String → CallOutcome) (m : Option String) :
    notify registry send m (some []) = notify registry send m none := by
  cases m with
  | none => rfl
  | some s => rfl

/-! ### Claim C6 -/

theorem ctorOk_iff (ctor : String → Except String Unit) (p : String) :
    ctorOk ctor p = true ↔ ctor p = .ok () := by
  cases hc : ctor p with
  | ok u => cases u; simp [ctorOk, hc]
  | error msg => simp [ctorOk, hc]

theorem initAttempt_eq_filter (ctor : String → Except String Unit)
    (e : Bool) (q : String) :
    initAttempt ctor e q =
      (if e then [q] else []).filter (fun p => ctorOk ctor p) := by
  cases e with
  | false => rfl
  | true =>
      cases hc : ctor q with
      | ok u => cases u; simp [initAttempt, ctorOk, hc]
      | error msg => simp [initAttempt, ctorOk, hc]

theorem initialize_notifiers_eq_filter (c : Config)
    (ctor : String → Except String Unit) :
    initialize_notifiers c ctor =
      c.get_enabled_platforms.filter (fun p => ctorOk ctor p) := by
  rw [initialize_notifiers, Config.get_enabled_platforms,
    List.filter_append, List.filter_append,
    initAttempt_eq_filter, initAttempt_eq_filter, initAttempt_eq_filter]

theorem startup_event_eq (c : Config)
    (ctor : String → Except String Unit) :
    startup_event c ctor =
      if c.get_enabled_platforms.isEmpty then
        .aborted "No notification platforms configured"
      else
        .started (initialize_notifiers c ctor) := by
  cases h : c.get_enabled_platforms.isEmpty with
  | true => simp [startup_event, Config.validate, h]
  | false => simp [startup_event, Config.validate, h]

/-- C6 counterexample: a configuration with Slack enabled whose adapter
constructor raises leaves zero adapters registered, yet startup proceeds
(`started []`) instead of signalling the fatal "no platforms configured"
error — the zero-registered check of src/src/app.py line 111 only logs a
warning. -/
theorem C6_counterexample :
    startup_event ⟨⟨some "tok", "#general"⟩, ⟨none, none⟩,
        ⟨none, none, none, none⟩⟩ (fun _ => .error "boom") =
      .started [] := by
  decide

/-- C6 (amended): startup aborts with the fatal "no platforms configured"
error exactly when zero platforms are enabled in the configuration
(`config.validate`); when at least one platform is enabled, startup
proceeds — even when every adapter construction fails — and the registry
holds exactly the enabled platforms whose constructor succeeded,
per-platform construction failures being skipped. -/
theorem C6_startup_policy (c : Config)
    (ctor : String → Except String Unit) :
    (startup_event c ctor =
        .aborted "No notification platforms configured" ↔
      c.get_enabled_platforms = []) ∧
    (c.get_enabled_platforms ≠ [] →
      startup_event c ctor = .started (initialize_notifiers c ctor)) ∧
    ∀ p, p ∈ initialize_notifiers c ctor ↔
      (p ∈ c.get_enabled_platforms ∧ ctor p = .ok ()) := by
  refine ⟨?_, ?_, ?_⟩
  · cases h : c.get_enabled_platforms.isEmpty with
    | true =>
        have he : c.get_enabled_platforms = [] := by
          cases hc : c.get_enabled_platforms with
          | nil => rfl
          | cons a as => rw [hc] at h; cases h
        rw [startup_event_eq c ctor, if_pos h]
        exact ⟨fun _ => he, fun _ => rfl⟩
    | false =>
        have he : c.get_enabled_platforms ≠ [] := by
          intro hnil
          rw [hnil] at h
          cases h
        rw [startup_event_eq c ctor, if_neg (by simp [h])]
        exact ⟨fun hab => StartupOutcome.noConfusion hab,
          fun hnil => absurd hnil he⟩
  · intro hne
    have h : c.get_enabled_platforms.isEmpty = false := by
      cases hc : c.get_enabled_platforms with
      | nil => exact absurd hc hne
      | cons a as => rfl
    rw [startup_event_eq c ctor, if_neg (by simp [h])]
  · intro p
    rw [initialize_notifiers_eq_filter c ctor]
    simp only [List.mem_filter, ctorOk_iff]

theorem C6_witness :
    startup_event ⟨⟨some "tok", "#general"⟩, ⟨none, none⟩,
        ⟨none, none, none, none⟩⟩ (fun _ => .ok ()) =
      .started (initialize_notifiers ⟨⟨some "tok", "#general"⟩,
        ⟨none, none⟩, ⟨none, none, none, none⟩⟩ (fun _ => .ok ())) :=
  (C6_startup_policy ⟨⟨some "tok", "#general"⟩, ⟨none, none⟩,
    ⟨none, none, none, none⟩⟩ (fun _ => .ok ())).2.1 (by decide)

/-! ### Claim C7 -/

/-- C7 counterexample: with one registered succeeding platform, a request
whose message is the empty string is rejected with status 422 (the
FastAPI/Pydantic validation failure of the `min_length=1` field), not with
status 400 as the claim states; the repository's own test
(tests/test_app.py, test_notify_missing_message) asserts the 422. -/
theorem C7_counterexample :
    ((notify ["slack"] (fun _ => .ok true) (some "")
        (some ["slack"])).reply).status = 422 ∧
    ((notify ["slack"] (fun _ => .ok true) (some "")
        (some ["slack"])).reply).status ≠ 400 := by
  exact ⟨by decide, by decide⟩

/-- C7 (amended): a request whose message is missing or empty is rejected
by the Pydantic model validation with a 422 response carrying the error
detail, and no adapter `send_message` is invoked. -/
theorem C7_message_validation (registry : List String)
    (send : String → CallOutcome) (pf : Option (List String))
    (m : Option String) (hm : m = none ∨ m = some "") :
    (notify registry send m pf).reply = .unprocessable ∧
    ((notify registry send m pf).reply).status = 422 ∧
    (notify registry send m pf).sent = [] := by
  rcases hm with h | h
  · subst h
    exact ⟨rfl, rfl, rfl⟩
  · subst h
    exact ⟨rfl, rfl, rfl⟩

theorem C7_witness :
    (notify ["slack"] (fun _ => .ok true) none
        (some ["slack"])).reply = .unprocessable ∧
    ((notify ["slack"] (fun _ => .ok true) none
        (some ["slack"])).reply).status = 422 ∧
    (notify ["slack"] (fun _ => .ok true) none
        (some ["slack"])).sent = [] :=
  C7_message_validation ["slack"] (fun _ => .ok true) (some ["slack"])
    none (Or.inl rfl)

/-! ### Claim C8 -/

/-- C8 counterexample: a registered platform whose `test_connection`
returns False without raising is recorded by /test as
`success=false, error=null` — a false entry whose error string is null,
contradicting the claim that every false entry carries a non-null error. -/
theorem C8_counterexample :
    test_connections ["slack"] (fun _ => .ok false) =
      [("slack", ⟨false, none⟩)] := by
  decide

/-- C8 (amended): for every duplicate-free registry state, /test returns
exactly one entry per registered platform (calling `test_connection` on
each); an entry carries a non-null error exactly when `test_connection`
raised, while a False return is recorded with a null error. -/
theorem C8_test_connections (registry : List String)
    (tc : String → CallOutcome) (hnd : registry.Nodup) :
    (test_connections registry tc).map Prod.fst = registry ∧
    (∀ p ∈ registry,
      dictGet p (test_connections registry tc) =
        some (toResult (tc p))) ∧
    (∀ p ∈ registry, ∀ e, tc p = .exn e →
      dictGet p (test_connections registry tc) =
        some ⟨false, some e⟩) ∧
    (∀ p ∈ registry, ∀ b, tc p = .ok b →
      dictGet p (test_connections registry tc) = some ⟨b, none⟩) := by
  have ht : test_connections registry tc =
      registry.map (fun p => (p, toResult (tc p))) := by
    have h := testFrom_spec tc registry [] hnd (fun p _ => rfl)
    simpa [test_connections] using h
  refine ⟨?_, ?_, ?_, ?_⟩
  · rw [ht]
    exact map_fst_pairing (fun q => toResult (tc q)) registry
  · intro p hp
    rw [ht, dictGet_map (fun q => toResult (tc q)) registry p hp]
  · intro p hp e he
    rw [ht, dictGet_map (fun q => toResult (tc q)) registry p hp, he]
    rfl
  · intro p hp b hb
    rw [ht, dictGet_map (fun q => toResult (tc q)) registry p hp, hb]
    rfl

theorem C8_witness :
    (test_connections ["slack", "whatsapp"]
        (fun p => if p == "slack" then .ok true
          else .exn "credentials")).map Prod.fst =
      ["slack", "whatsapp"] ∧
    (∀ p ∈ (["slack", "whatsapp"] : List String),
      dictGet p (test_connections ["slack", "whatsapp"]
          (fun p => if p == "slack" then .ok true
            else .exn "credentials")) =
        some (toResult (if p == "slack" then .ok true
          else .exn "credentials"))) ∧
    (∀ p ∈ (["slack", "whatsapp"] : List String), ∀ e,
      (if p == "slack" then CallOutcome.ok true
        else CallOutcome.exn "credentials") = .exn e →
      dictGet p (test_connections ["slack", "whatsapp"]
          (fun p => if p == "slack" then .ok true
            else .exn "credentials")) = some ⟨false, some e⟩) ∧
    (∀ p ∈ (["slack", "whatsapp"] : List String), ∀ b,
      (if p == "slack" then CallOutcome.ok true
        else CallOutcome.exn "credentials") = .ok b →
      dictGet p (test_connections ["slack", "whatsapp"]
          (fun p => if p == "slack" then .ok true
            else .exn "credentials")) = some ⟨b, none⟩) :=
  C8_test_connections ["slack", "whatsapp"]
    (fun p => if p == "slack" then .ok true else .exn "credentials")
    (by decide)

/-! ### Claim C9 -/

theorem pyTruthyOpt_someEq (s : String) :
    pyTruthyOpt (some s) = pyTruthy s := rfl

/-- C9: for every WhatsApp configuration whose four required fields are
non-empty, `validate_config` succeeds and afterwards both numbers start
with the `whatsapp:` scheme; the scheme is added exactly when it was
absent (an already-prefixed number is left unchanged, an unprefixed one
gets the scheme prepended); and running `validate_config` again on the
normalized configuration leaves it unchanged (idempotence). -/
theorem C9_whatsapp_normalization (cfg : WhatsAppConfig)
    (h1 : pyTruthyOpt cfg.account_sid = true)
    (h2 : pyTruthyOpt cfg.auth_token = true)
    (h3 : pyTruthyOpt cfg.from_number = true)
    (h4 : pyTruthyOpt cfg.to_number = true) :
    ∃ cfg2 : WhatsAppConfig,
      WhatsAppNotifier.validate_config cfg = .ok cfg2 ∧
      pyStartswith (cfg2.from_number.getD "") "whatsapp:" = true ∧
      pyStartswith (cfg2.to_number.getD "") "whatsapp:" = true ∧
      (pyStartswith (cfg.from_number.getD "") "whatsapp:" = true →
        cfg2.from_number = cfg.from_number) ∧
      (pyStartswith (cfg.from_number.getD "") "whatsapp:" = false →
        cfg2.from_number =
          some ("whatsapp:" ++ cfg.from_number.getD "")) ∧
      (pyStartswith (cfg.to_number.getD "") "whatsapp:" = true →
        cfg2.to_number = cfg.to_number) ∧
      (pyStartswith (cfg.to_number.getD "") "whatsapp:" = false →
        cfg2.to_number = some ("whatsapp:" ++ cfg.to_number.getD "")) ∧
      WhatsAppNotifier.validate_config cfg2 = .ok cfg2 := by
  obtain ⟨sid, tok, fn, tn⟩ := cfg
  cases fn with
  | none => exact absurd h3 (by simp [pyTruthyOpt])
  | some f =>
  cases tn with
  | none => exact absurd h4 (by simp [pyTruthyOpt])
  | some t =>
  refine ⟨⟨sid, tok, some (withScheme f), some (withScheme t)⟩,
    ?_, ?_, ?_, ?_, ?_, ?_, ?_, ?_⟩
  · simp only [WhatsAppNotifier.validate_config] at *
    simp [h1, h2, h3, h4]
  · exact withScheme_has f
  · exact withScheme_has t
  · intro hc
    simp only [Option.getD] at hc
    simp [withScheme_of_has f hc]
  · intro hc
    simp only [Option.getD] at hc
    simp [withScheme_of_absent f hc]
  · intro hc
    simp only [Option.getD] at hc
    simp [withScheme_of_has t hc]
  · intro hc
    simp only [Option.getD] at hc
    simp [withScheme_of_absent t hc]
  · dsimp only at h1 h2
    simp [WhatsAppNotifier.validate_config, pyTruthyOpt_someEq,
      withScheme_truthy, withScheme_idem, h1, h2]

theorem C9_witness :
    ∃ cfg2 : WhatsAppConfig,
      WhatsAppNotifier.validate_config
        ⟨some "sid", some "tok", some "+123", some "whatsapp:+456"⟩ =
          .ok cfg2 ∧
      pyStartswith (cfg2.from_number.getD "") "whatsapp:" = true ∧
      pyStartswith (cfg2.to_number.getD "") "whatsapp:" = true ∧
      (pyStartswith "+123" "whatsapp:" = true →
        cfg2.from_number = some "+123") ∧
      (pyStartswith "+123" "whatsapp:" = false →
        cfg2.from_number = some ("whatsapp:" ++ "+123")) ∧
      (pyStartswith "whatsapp:+456" "whatsapp:" = true →
        cfg2.to_number = some "whatsapp:+456") ∧
      (pyStartswith "whatsapp:+456" "whatsapp:" = false →
        cfg2.to_number = some ("whatsapp:" ++ "whatsapp:+456")) ∧
      WhatsAppNotifier.validate_config cfg2 = .ok cfg2 :=
  C9_whatsapp_normalization
    ⟨some "sid", some "tok", some "+123", some "whatsapp:+456"⟩
    rfl rfl rfl rfl

/-! ### Claim C10 -/

/-- C10: an adapter whose `send_message` returns False without raising is
recorded in the results with `success=false` and `error=null`; the
successful counter counts exactly the list positions whose send returned
True (so a False return contributes nothing); and a validated request all
of whose adapters return False ends in the 500 total-failure reply. -/
theorem C10_false_return (registry : List String)
    (send : String → CallOutcome) (m : String) (ps : List String)
    (hm : pyTruthy m = true) (hne : ps ≠ []) (hnd : ps.Nodup)
    (hsub : ∀ p ∈ ps, registry.contains p = true) :
    (∀ p ∈ ps, send p = .ok false →
      dictGet p (dispatch send ps).1 = some ⟨false, none⟩) ∧
    (dispatch send ps).2 =
      (ps.filter (fun p => send p == CallOutcome.ok true)).length ∧
    ((∀ p ∈ ps, send p = .ok false) →
      (notify registry send (some m) (some ps)).reply =
        .totalFailure ⟨"Failed to send to any platform", ps.length, 0,
          (dispatch send ps).1⟩ ∧
      ((notify registry send (some m) (some ps)).reply).status = 500) := by
  have hd := dispatch_spec send ps hnd
  refine ⟨?_, ?_, ?_⟩
  · intro p hp hpf
    rw [hd]
    dsimp only
    rw [dictGet_map (fun q => toResult (send q)) ps p hp, hpf]
    rfl
  · rw [hd]
    exact countSucc_eq_filter send ps
  · intro hall
    have h0 : (dispatch send ps).2 = 0 := by
      rw [hd]
      exact countSucc_zero_of_false send ps hall
    rw [notify_valid_eq registry send m ps hm hne hsub, if_pos h0]
    exact ⟨rfl, rfl⟩

theorem C10_witness :
    pyTruthy "hi" = true ∧
    ((∀ p ∈ (["slack"] : List String),
        (fun (_ : String) => CallOutcome.ok false) p = .ok false →
      dictGet p (dispatch (fun _ => .ok false) ["slack"]).1 =
        some ⟨false, none⟩) ∧
    (dispatch (fun _ => .ok false) ["slack"]).2 =
      ((["slack"] : List String).filter
        (fun _ => CallOutcome.ok false == CallOutcome.ok true)).length ∧
    ((∀ p ∈ (["slack"] : List String),
        (fun (_ : String) => CallOutcome.ok false) p = .ok false) →
      (notify ["slack"] (fun _ => .ok false) (some "hi")
          (some ["slack"])).reply =
        .totalFailure ⟨"Failed to send to any platform",
          (["slack"] : List String).length, 0,
          (dispatch (fun _ => .ok false) ["slack"]).1⟩ ∧
      ((notify ["slack"] (fun _ => .ok false) (some "hi")
          (some ["slack"])).reply).status = 500)) := by
  refine ⟨by decide, ?_⟩
  exact C10_false_return ["slack"] (fun _ => .ok false) "hi" ["slack"]
    (by decide) (by decide) (by decide) (by decide)

end LanNotifier
